import Mathlib

/-!
Shallow embedding of the `bluezgattlib` (and, for the scanner overlay,
`corebluetooth`) backends of this BLE client library, together with proofs
about the GATT tree assembly, connection lifecycle, notification routing,
scanner aggregation and write-path behaviour.

Source files embedded:
* `bleak/backends/bluezgattlib/service.py`  (`BleakGATTServiceBlueZGattlib`)
* `bleak/backends/bluezgattlib/client.py`   (`BleakClientBlueZGattlib`)
* `bleak/backends/bluezgattlib/scanner.py`  (`BleakScannerBlueZGattlib`)
* `bleak/backends/corebluetooth/scanner.py` (`BleakScannerCoreBluetooth`)

Python dictionaries are modelled as association lists with Python's
semantics (assignment replaces in place, lookup finds the unique key);
native gattlib calls are modelled by passing their results/status codes in
as explicit inputs; raising a Python exception is modelled with `Except`.
-/

namespace Bleak

/-- Lookup in an association list, the model of Python `d[k]` / `d.get(k)`. -/
def alistLookup {α β : Type} [DecidableEq α] : List (α × β) → α → Option β
  | [], _ => none
  | (k, v) :: t, k2 => if k2 = k then some v else alistLookup t k2

/-- Assignment `d[k] = v` on a Python dict: replace the value in place when
the key is present, append otherwise. -/
def alistInsert {α β : Type} [DecidableEq α] : List (α × β) → α → β → List (α × β)
  | [], k, v => [(k, v)]
  | (k1, v1) :: t, k, v =>
    if k = k1 then (k1, v) :: t else (k1, v1) :: alistInsert t k v

/-- `old.update(upd)` on Python dicts: every key of `upd` is assigned into
`old` in order. -/
def dictUpdate {α β : Type} [DecidableEq α] (old upd : List (α × β)) : List (α × β) :=
  upd.foldl (fun d kv => alistInsert d kv.1 kv.2) old

theorem alistLookup_insert {α β : Type} [DecidableEq α]
    (d : List (α × β)) (k k2 : α) (v : β) :
    alistLookup (alistInsert d k v) k2 =
      if k2 = k then some v else alistLookup d k2 := by
  induction d with
  | nil => simp [alistInsert, alistLookup]
  | cons hd t ih =>
    obtain ⟨k1, v1⟩ := hd
    by_cases hk : k = k1
    · subst hk
      by_cases h2 : k2 = k <;> simp [alistInsert, alistLookup, h2]
    · by_cases h2 : k2 = k1
      · subst h2
        simp [alistInsert, alistLookup, hk, Ne.symm hk]
      · simp [alistInsert, alistLookup, hk, h2, ih]

theorem alistLookup_eq_none_of_not_mem {α β : Type} [DecidableEq α]
    (d : List (α × β)) (k : α) (h : k ∉ d.map Prod.fst) :
    alistLookup d k = none := by
  induction d with
  | nil => rfl
  | cons hd t ih =>
    obtain ⟨k1, v1⟩ := hd
    simp only [List.map_cons, List.mem_cons] at h
    push_neg at h
    simp [alistLookup, h.1, ih h.2]

/-- The overlay rule for dictionary lookup: a key present in the update
wins, a key absent from it keeps its old binding. -/
def lookupOverlay {α β : Type} [DecidableEq α]
    (old upd : List (α × β)) (k : α) : Option β :=
  match alistLookup upd k with
  | some v => some v
  | none => alistLookup old k

/-- Lookup after a Python `dict.update` follows the overlay rule.  (The
update is a Python dict, so its keys are unique.) -/
theorem alistLookup_dictUpdate {α β : Type} [DecidableEq α]
    (old upd : List (α × β)) (k : α) (hnd : (upd.map Prod.fst).Nodup) :
    alistLookup (dictUpdate old upd) k = lookupOverlay old upd k := by
  induction upd generalizing old with
  | nil => simp [dictUpdate, lookupOverlay, alistLookup]
  | cons hd t ih =>
    obtain ⟨k1, v1⟩ := hd
    simp only [List.map_cons, List.nodup_cons] at hnd
    have step : dictUpdate old ((k1, v1) :: t) = dictUpdate (alistInsert old k1 v1) t := rfl
    rw [step, ih (alistInsert old k1 v1) hnd.2]
    by_cases hk : k = k1
    · subst hk
      have : alistLookup t k = none := alistLookup_eq_none_of_not_mem t k hnd.1
      simp [lookupOverlay, alistLookup, this, alistLookup_insert]
    · simp [lookupOverlay, alistLookup, hk, alistLookup_insert]

/-! ## GATT tree model (`bluezgattlib/service.py` and `client.py::get_services`)

UUIDs are opaque to the attachment logic; they are modelled as `Nat`.
`BleakGATTCharacteristicBlueZGattlib` (its module is not under `src/`) is a
passthrough wrapper exposing the underlying gattlib struct's `uuid` and
`handle`; it is modelled as the record of those two fields. -/

/-- A discovered characteristic as seen by the attachment loop: its `uuid`
and its attribute `handle`. -/
structure Characteristic where
  uuid : Nat
  handle : Nat
deriving DecidableEq, Repr

/-- The raw `GattlibPrimaryService` struct returned by
`gattlib_discover_primary`: a UUID and the attribute-handle range. -/
structure GattlibPrimaryService where
  uuid : Nat
  attr_handle_start : Nat
  attr_handle_end : Nat
deriving DecidableEq, Repr

/-- `BleakGATTServiceBlueZGattlib`: wraps the primary-service struct and
owns a (initially empty) list of characteristics. -/
structure Service where
  uuid : Nat
  attr_handle_start : Nat
  attr_handle_end : Nat
  characteristics : List Characteristic
deriving DecidableEq, Repr

/-- `BleakGATTServiceBlueZGattlib.__init__`: keep the primary-service
fields, start with no characteristics. -/
def Service.ofPrimary (p : GattlibPrimaryService) : Service :=
  { uuid := p.uuid
    attr_handle_start := p.attr_handle_start
    attr_handle_end := p.attr_handle_end
    characteristics := [] }

/-- `BleakGATTServiceBlueZGattlib.add_characteristic`: append the
characteristic and report `True` exactly when its handle lies in
`[attr_handle_start, attr_handle_end]`, otherwise leave the service
unchanged and report `False`. -/
def Service.add_characteristic (s : Service) (c : Characteristic) : Service × Bool :=
  if s.attr_handle_start ≤ c.handle ∧ c.handle ≤ s.attr_handle_end then
    ({ s with characteristics := s.characteristics ++ [c] }, true)
  else
    (s, false)

/-- The containment test of `add_characteristic`, as a `Bool`. -/
def Service.containsHandle (s : Service) (c : Characteristic) : Bool :=
  decide (s.attr_handle_start ≤ c.handle ∧ c.handle ≤ s.attr_handle_end)

/-- The inner loop of `get_services` for one characteristic:
`for s in self.services: if s.add_characteristic(characteristic): ... added = True`.
Returns the updated service list and the `added` flag. -/
def attachOne : List Service → Characteristic → List Service × Bool
  | [], _ => ([], false)
  | s :: t, c =>
    let r1 := s.add_characteristic c
    let r2 := attachOne t c
    (r1.1 :: r2.1, r1.2 || r2.2)

/-- The outer loop of `get_services` over all discovered characteristics:
attach each one to every service whose range contains it, and log an orphan
warning `(uuid, handle)` when no service accepted it. -/
def attachAll : List Service → List (Nat × Nat) → List Characteristic →
    List Service × List (Nat × Nat)
  | ss, ws, [] => (ss, ws)
  | ss, ws, c :: cs =>
    let r := attachOne ss c
    attachAll r.1 (if r.2 then ws else ws ++ [(c.uuid, c.handle)]) cs

theorem attachOne_services (ss : List Service) (c : Characteristic) :
    (attachOne ss c).1 =
      ss.map (fun s =>
        if s.containsHandle c then
          { s with characteristics := s.characteristics ++ [c] }
        else s) := by
  induction ss with
  | nil => rfl
  | cons s t ih =>
    simp only [attachOne, List.map_cons, ih, Service.add_characteristic,
      Service.containsHandle]
    by_cases h : s.attr_handle_start ≤ c.handle ∧ c.handle ≤ s.attr_handle_end <;>
      simp [h]

theorem attachOne_added (ss : List Service) (c : Characteristic) :
    (attachOne ss c).2 = ss.any (fun s => s.containsHandle c) := by
  induction ss with
  | nil => rfl
  | cons s t ih =>
    simp only [attachOne, List.any_cons, ih, Service.add_characteristic,
      Service.containsHandle]
    by_cases h : s.attr_handle_start ≤ c.handle ∧ c.handle ≤ s.attr_handle_end <;>
      simp [h]

theorem containsHandle_after_add (s : Service) (c c2 : Characteristic) :
    Service.containsHandle
      (if s.containsHandle c then
        { s with characteristics := s.characteristics ++ [c] }
      else s) c2 = s.containsHandle c2 := by
  by_cases h : s.containsHandle c = true
  · rw [if_pos h]
    rfl
  · rw [if_neg h]

/-- One step of the association loop, stated on the map form produced by
`attachOne_services`. -/
theorem attach_step_fun (c : Characteristic) (cs : List Characteristic)
    (s : Service) :
    (fun s : Service =>
      { s with characteristics :=
          s.characteristics ++ cs.filter (fun c2 => s.containsHandle c2) })
      (if s.containsHandle c then
        { s with characteristics := s.characteristics ++ [c] }
      else s) =
    { s with characteristics :=
        s.characteristics ++ (c :: cs).filter (fun c2 => s.containsHandle c2) } := by
  by_cases h : s.containsHandle c = true
  · rw [if_pos h]
    simp only [List.filter_cons, h, if_true, containsHandle_after_add]
    have : Service.containsHandle
        { s with characteristics := s.characteristics ++ [c] } = s.containsHandle := by
      funext c2
      rfl
    rw [this]
    simp [List.append_assoc]
  · rw [if_neg h]
    simp only [List.filter_cons]
    rw [if_neg (by simpa using h)]

/-- Closed form of the service side of the characteristic-association
loop: every service ends with its original characteristics followed by
exactly those discovered characteristics whose handle its range
contains. -/
theorem attachAll_services (cs : List Characteristic) (ss : List Service)
    (ws : List (Nat × Nat)) :
    (attachAll ss ws cs).1 =
      ss.map (fun s =>
        { s with characteristics :=
            s.characteristics ++ cs.filter (fun c => s.containsHandle c) }) := by
  induction cs generalizing ss ws with
  | nil =>
    simp only [attachAll, List.filter_nil, List.append_nil]
    exact (List.map_id ss).symm
  | cons c cs ih =>
    simp only [attachAll, attachOne_services, ih, List.map_map]
    apply List.map_congr_left
    intro s _
    exact attach_step_fun c cs s

/-- Closed form of the orphan side of the characteristic-association loop:
the warning log gains exactly the discovered characteristics contained in
no service's handle range, in discovery order. -/
theorem attachAll_orphans (cs : List Characteristic) (ss : List Service)
    (ws : List (Nat × Nat)) :
    (attachAll ss ws cs).2 =
      ws ++ (cs.filter (fun c => ¬ ss.any (fun s => s.containsHandle c))).map
          (fun c => (c.uuid, c.handle)) := by
  induction cs generalizing ss ws with
  | nil => simp [attachAll]
  | cons c cs ih =>
    simp only [attachAll, attachOne_services, attachOne_added, ih]
    have hmap : ∀ c2 : Characteristic,
        ((ss.map (fun s =>
          if s.containsHandle c then
            { s with characteristics := s.characteristics ++ [c] }
          else s)).any (fun s => s.containsHandle c2)) =
        ss.any (fun s => s.containsHandle c2) := by
      intro c2
      rw [List.any_map]
      congr 1
      funext s
      simp only [Function.comp_apply, containsHandle_after_add]
    simp only [hmap, List.filter_cons]
    by_cases h : ss.any (fun s => s.containsHandle c) = true
    · simp [h]
    · simp [h]

/-! ## Client model (`bluezgattlib/client.py::BleakClientBlueZGattlib`)

Native gattlib calls are modelled by passing their results in as explicit
inputs (`Option` connection handles, `Int` status codes, struct arrays).
Python exceptions escaping a method are modelled with `Except`. -/

/-- The errors the embedded client code can raise: `BleakError("Connection
failed.")`, a Python `TypeError`, and the typed error produced from a
nonzero native status code. -/
inductive BleakErr
  | connectionFailed
  | typeError (msg : String)
  | nativeError (code : Int)
deriving DecidableEq, Repr

/-- Modelled from the spec: `handle_return`
(`bleak/backends/bluezgattlib/exception.py`, not under `src/`) translates a
native integer status code at the boundary into the library's error
taxonomy — it raises on any nonzero status and returns normally on zero.
(Under this model the `if ret != 0: logger.error(...)` lines that follow
`handle_return(ret)` in `get_services` are unreachable.) -/
def handle_return (ret : Int) : Except BleakErr Unit :=
  if ret = 0 then .ok () else .error (.nativeError ret)

/-- A D-Bus `Variant` value as far as `_parse_msg` inspects one: a byte
string (a characteristic value), a boolean property, a string, or anything
else. -/
inductive DBusValue
  | bytes (v : List Nat)
  | bool (b : Bool)
  | str (s : String)
  | other
deriving DecidableEq, Repr

/-- Python truthiness of the values above (`if changed["ServicesResolved"]:`
and `not changed["Connected"]`). -/
def DBusValue.truthy : DBusValue → Bool
  | .bytes v => !v.isEmpty
  | .bool b => b
  | .str s => !s.isEmpty
  | .other => true

/-- The mutable state of one `BleakClientBlueZGattlib`, together with the
observable effects the claims are about.  Effect counters/lists (the
`discover_*_calls` counters, `native_writes`, `invoked`, `signal_log`,
`orphan_warnings`, `cleanup_tasks`, `disconnected_callback_calls`) record
side effects: native calls issued, notification callbacks invoked, log
entries emitted, `_cleanup_all` teardown tasks scheduled. -/
structure ClientState where
  /-- `self._connection` (`None` before a successful connect). -/
  connection : Option Nat
  /-- `self._services_resolved`. -/
  services_resolved : Bool
  /-- `self.services` — the service collection, modelled as a list. -/
  services : List Service
  /-- Keys of `self._notification_callbacks` (D-Bus object paths). -/
  notification_callbacks : List String
  /-- `self._properties` (device properties cache). -/
  properties : List (String × DBusValue)
  /-- `self._services_resolved_event` is not `None` / has been `set()`. -/
  services_resolved_event_present : Bool
  services_resolved_event_set : Bool
  /-- `self._disconnect_monitor_event` is not `None` / has been `set()`. -/
  disconnect_monitor_event_present : Bool
  disconnect_monitor_event_set : Bool
  /-- `self._disconnecting_event` is not `None` / has been `set()`. -/
  disconnecting_event_present : Bool
  disconnecting_event_set : Bool
  /-- `self._disconnected_callback` is not `None`. -/
  disconnected_callback_present : Bool
  /-- How many times the disconnected callback has been scheduled. -/
  disconnected_callback_calls : Nat
  /-- How many `_cleanup_all()` teardown tasks have been scheduled. -/
  cleanup_tasks : Nat
  /-- Calls issued to `gattlib_discover_primary` / `gattlib_discover_char`. -/
  discover_primary_calls : Nat
  discover_char_calls : Nat
  /-- Orphan warnings logged by `get_services`: `(uuid, handle)` pairs. -/
  orphan_warnings : List (Nat × Nat)
  /-- Notification deliveries: `(path, handle, value)` per invoked callback. -/
  invoked : List (String × Nat × DBusValue)
  /-- One `received D-Bus signal: ...` debug entry per signal received. -/
  signal_log : List (String × String)
  /-- Buffers handed to `gattlib_write_char_by_uuid` /
  `gattlib_write_without_response_char_by_uuid`: `(response, data)`. -/
  native_writes : List (Bool × List Nat)
  /-- D-Bus objects recorded by the `InterfacesAdded` branch. -/
  bus_objects : List (String × List String)
deriving DecidableEq, Repr

/-- A client as constructed by `__init__`: no connection, nothing resolved,
no callbacks, no effects yet. -/
def initialClient : ClientState :=
  { connection := none
    services_resolved := false
    services := []
    notification_callbacks := []
    properties := []
    services_resolved_event_present := false
    services_resolved_event_set := false
    disconnect_monitor_event_present := false
    disconnect_monitor_event_set := false
    disconnecting_event_present := false
    disconnecting_event_set := false
    disconnected_callback_present := false
    disconnected_callback_calls := 0
    cleanup_tasks := 0
    discover_primary_calls := 0
    discover_char_calls := 0
    orphan_warnings := []
    invoked := []
    signal_log := []
    native_writes := []
    bus_objects := [] }

/-- `BleakClientBlueZGattlib.connect`: store the handle returned by
`gattlib_connect` into `self._connection`, raise
`BleakError("Connection failed.")` when it is `None`, return `True`
otherwise.  `nativeConnection` is the value `gattlib_connect` returned. -/
def connect (nativeConnection : Option Nat) (st : ClientState) :
    ClientState × Except BleakErr Bool :=
  let st2 := { st with connection := nativeConnection }
  match nativeConnection with
  | none => (st2, .error .connectionFailed)
  | some _ => (st2, .ok true)

/-- `BleakClientBlueZGattlib.disconnect`: when a connection handle exists,
call `gattlib_disconnect` (its status is the input `native_ret`), feed the
status through `handle_return`, and return `ret == 0`; when no handle
exists, return `False`.  Nothing else on the client is touched. -/
def disconnect (native_ret : Int) (st : ClientState) :
    ClientState × Except BleakErr Bool :=
  match st.connection with
  | some _ =>
    match handle_return native_ret with
    | .error e => (st, .error e)
    | .ok _ => (st, .ok (native_ret == 0))
  | none => (st, .ok false)

/-- `BleakClientBlueZGattlib.is_connected`: literally
`return self._connection == None`. -/
def is_connected (st : ClientState) : Bool :=
  st.connection == none

/-- The results the native discovery calls hand back to `get_services`:
the status and struct array of `gattlib_discover_primary`, and the status
and struct array of `gattlib_discover_char` (each characteristic already
viewed through its passthrough wrapper, i.e. as `uuid` and `handle`). -/
structure DiscoveryEnv where
  primary_status : Int
  primaries : List GattlibPrimaryService
  char_status : Int
  characteristics : List Characteristic
deriving DecidableEq, Repr

/-- `BleakClientBlueZGattlib.get_services`: return the cached collection
immediately when `self._services_resolved`; otherwise discover primaries
(adding one `BleakGATTServiceBlueZGattlib` per struct to the collection),
discover characteristics, attach each characteristic to every service
whose handle range accepts it (logging a warning for orphans), mark the
services resolved and return the collection.  Debug-level log chatter is
not modelled; the orphan warnings are. -/
def get_services (env : DiscoveryEnv) (st : ClientState) :
    ClientState × Except BleakErr (List Service) :=
  if st.services_resolved then (st, .ok st.services)
  else
    let st1 := { st with discover_primary_calls := st.discover_primary_calls + 1 }
    match handle_return env.primary_status with
    | .error e => (st1, .error e)
    | .ok _ =>
      let st2 := { st1 with
        services := st1.services ++ env.primaries.map Service.ofPrimary }
      let st3 := { st2 with discover_char_calls := st2.discover_char_calls + 1 }
      match handle_return env.char_status with
      | .error e => (st3, .error e)
      | .ok _ =>
        let r := attachAll st3.services st3.orphan_warnings env.characteristics
        let st4 := { st3 with
          services := r.1
          orphan_warnings := r.2
          services_resolved := true }
        (st4, .ok st4.services)

/-- The Python type tag of the `data` argument of `write_gatt_char`. -/
inductive WriteData
  | bytes (b : List Nat)
  | bytearray (b : List Nat)
  | other (type_name : String)
deriving DecidableEq, Repr

/-- `BleakClientBlueZGattlib.write_gatt_char`: raise
`TypeError("Data must be of bytes type to know its size.")` when `data` is
neither `bytes` nor `bytearray`, before any native call; otherwise copy the
buffer into the native write (with or without response, per `response`)
and feed the native status through `handle_return`. -/
def write_gatt_char (data : WriteData) (response : Bool) (native_ret : Int)
    (st : ClientState) : ClientState × Except BleakErr Unit :=
  match data with
  | .other _ =>
    (st, .error (.typeError "Data must be of bytes type to know its size."))
  | .bytes b =>
    let st2 := { st with native_writes := st.native_writes ++ [(response, b)] }
    (st2, handle_return native_ret)
  | .bytearray b =>
    let st2 := { st with native_writes := st.native_writes ++ [(response, b)] }
    (st2, handle_return native_ret)

/-! ## The D-Bus signal handler (`client.py::_parse_msg`) -/

/-- `dbus_next` message types. -/
inductive MessageType
  | signal
  | methodCall
  | methodReturn
  | errorReply
deriving DecidableEq, Repr

/-- The bodies `_parse_msg` unpacks: `(path, interfaces)` for
`InterfacesAdded`/`InterfacesRemoved` (the interfaces dict is recorded by
its keys), and `(interface, changed, invalidated)` for
`PropertiesChanged` (the unused `invalidated` list is omitted). -/
inductive MessageBody
  | interfaces (path : String) (names : List String)
  | propsChanged (iface : String) (changed : List (String × DBusValue))
  | emptyBody
deriving DecidableEq, Repr

/-- A D-Bus message as `_parse_msg` reads it. -/
structure Message where
  message_type : MessageType
  member : String
  path : String
  interface : String
  body : MessageBody
deriving DecidableEq, Repr

/-- `bleak.backends.bluezdbus.defs.GATT_SERVICE_INTERFACE`. -/
def GATT_SERVICE_INTERFACE : String := "org.bluez.GattService1"

/-- `bleak.backends.bluezdbus.defs.GATT_CHARACTERISTIC_INTERFACE`. -/
def GATT_CHARACTERISTIC_INTERFACE : String := "org.bluez.GattCharacteristic1"

/-- `bleak.backends.bluezdbus.defs.DEVICE_INTERFACE`. -/
def DEVICE_INTERFACE : String := "org.bluez.Device1"

/-- Value of one hexadecimal digit (`0` for a non-digit; Python's
`int(_, 16)` would raise there, which no valid BlueZ object path hits). -/
def hex_digit_val (c : Char) : Nat :=
  if '0' ≤ c ∧ c ≤ '9' then c.toNat - '0'.toNat
  else if 'a' ≤ c ∧ c ≤ 'f' then c.toNat - 'a'.toNat + 10
  else if 'A' ≤ c ∧ c ≤ 'F' then c.toNat - 'A'.toNat + 10
  else 0

/-- `int(path[-4:], 16)`: the characteristic handle encoded in the last
four characters of a BlueZ object path. -/
def path_handle (p : String) : Nat :=
  ((p.toList.reverse.take 4).reverse).foldl (fun a c => 16 * a + hex_digit_val c) 0

/-- The `elif interface == defs.DEVICE_INTERFACE:` block of `_parse_msg`:
merge the changed properties into `self._properties`; on a
`ServicesResolved` change either set the resolved event (truthy) or clear
`self._services_resolved` (falsy); on a falsy `Connected` change set and
drop the disconnect-monitor event, schedule a `_cleanup_all()` task, and
hook the disconnected callback and the disconnecting event onto the
task's completion. -/
def on_device_props_changed (changed : List (String × DBusValue))
    (st : ClientState) : ClientState :=
  let st1 := { st with properties := dictUpdate st.properties changed }
  let st2 :=
    match alistLookup changed "ServicesResolved" with
    | some v =>
      if v.truthy then
        if st1.services_resolved_event_present then
          { st1 with services_resolved_event_set := true }
        else st1
      else { st1 with services_resolved := false }
    | none => st1
  match alistLookup changed "Connected" with
  | some v =>
    if !v.truthy then
      let st3 :=
        if st2.disconnect_monitor_event_present then
          { st2 with
            disconnect_monitor_event_set := true
            disconnect_monitor_event_present := false }
        else st2
      let st4 := { st3 with cleanup_tasks := st3.cleanup_tasks + 1 }
      let st5 :=
        if st4.disconnected_callback_present then
          { st4 with
            disconnected_callback_calls := st4.disconnected_callback_calls + 1 }
        else st4
      if st5.disconnecting_event_present then
        { st5 with disconnecting_event_set := true }
      else st5
    else st2
  | none => st2

/-- `BleakClientBlueZGattlib._parse_msg`: ignore non-signals; log every
signal; record the objects of an `InterfacesAdded` body (the BlueZDBus
wrapper classes it constructs live outside `src/`, so the branch is
modelled as recording the added objects — it touches neither the
notification callbacks nor the lifecycle fields); ignore
`InterfacesRemoved`; on `PropertiesChanged` for the characteristic
interface, invoke the registered callback exactly when the message path is
a registered key and the changed dict carries `"Value"`; on
`PropertiesChanged` for the device interface, update the property cache,
handle `ServicesResolved`, and on a falsy `Connected` set/clear the
disconnect-monitor event, schedule a `_cleanup_all()` task and hook the
disconnected callback and disconnecting event onto its completion. -/
def parse_msg (msg : Message) (st : ClientState) : ClientState :=
  if msg.message_type ≠ MessageType.signal then st
  else
    let st0 := { st with signal_log := st.signal_log ++ [(msg.member, msg.path)] }
    if msg.member = "InterfacesAdded" then
      match msg.body with
      | .interfaces p names =>
        { st0 with bus_objects := st0.bus_objects ++ [(p, names)] }
      | _ => st0
    else if msg.member = "InterfacesRemoved" then st0
    else if msg.member = "PropertiesChanged" then
      match msg.body with
      | .propsChanged iface changed =>
        if iface = GATT_CHARACTERISTIC_INTERFACE then
          if msg.path ∈ st0.notification_callbacks then
            match alistLookup changed "Value" with
            | some v =>
              { st0 with invoked :=
                  st0.invoked ++ [(msg.path, path_handle msg.path, v)] }
            | none => st0
          else st0
        else if iface = DEVICE_INTERFACE then
          on_device_props_changed changed st0
        else st0
      | _ => st0
    else st0

/-- The routing rule of the notification router, read off the spec: the
callback registered under exactly the event's object path is invoked iff
the event is a `PropertiesChanged` signal on the characteristic interface
whose path is a registered key and whose changed dict carries a value. -/
def value_change_dispatch (msg : Message) (st : ClientState) :
    List (String × Nat × DBusValue) :=
  match msg.body with
  | .propsChanged iface changed =>
    if msg.message_type = MessageType.signal ∧ msg.member = "PropertiesChanged" ∧
        iface = GATT_CHARACTERISTIC_INTERFACE ∧
        msg.path ∈ st.notification_callbacks then
      match alistLookup changed "Value" with
      | some v => [(msg.path, path_handle msg.path, v)]
      | none => []
    else []
  | _ => []

/-! ## BlueZ-gattlib scanner (`bluezgattlib/scanner.py`)

The native fetches inside `_on_discovered_device`
(`gattlib_get_advertisement_data_from_mac`, `gattlib_get_uuids_from_mac`)
are modelled by carrying their successfully decoded results on the
sighting itself.  The only logging sites on this path are the
`None`-address guard inside `_get_advertisement_data` (unreachable: the
callback returns before calling it when the address is `None`) and the
UUID-fetch failure path, so on the embedded success path no log entry is
emitted. -/

/-- The `AdvertisementData` value packed by `_on_discovered_device`. -/
structure AdvertisementData where
  local_name : Option String
  manufacturer_data : List (Nat × Option (List Nat))
  service_data : List (Nat × List Nat)
  service_uuids : List String
deriving DecidableEq, Repr

/-- One raw discovery event: the callback's `address` and `name`
arguments plus the natively fetched advertisement payload for that
address. -/
structure Sighting where
  address : Option String
  name : Option String
  service_data : List (Nat × List Nat)
  manufacturer_id : Nat
  manufacturer_data : Option (List Nat)
  service_uuids : List String
deriving DecidableEq, Repr

/-- One entry of `self._devices[address]`: exactly the five keys the
callback assigns (`"AdvertisingData"`, `"ManufacturerData"`, `"Name"`,
`"ServiceData"`, `"UUIDs"`); no other key is ever written into it. -/
structure DeviceProps where
  advertising_data : Option AdvertisementData
  manufacturer_data : List (Nat × Option (List Nat))
  name : Option String
  service_data : List (Nat × List Nat)
  uuids : List String
deriving DecidableEq, Repr

/-- The empty dict `self._devices.get(address, {})` falls back to. -/
def emptyProps : DeviceProps :=
  { advertising_data := none
    manufacturer_data := []
    name := none
    service_data := []
    uuids := [] }

/-- The scanner's mutable state: the per-address record map, the
`(address, advertisement)` pairs handed to the registered detection
callback, and the log. -/
structure ScannerState where
  devices : List (String × DeviceProps)
  emitted : List (String × AdvertisementData)
  log : List String
deriving DecidableEq, Repr

/-- The scanner state right after `start()` cleared its caches. -/
def emptyScanner : ScannerState :=
  { devices := [], emitted := [], log := [] }

/-- `BleakScannerBlueZGattlib.start._on_discovered_device`: return
immediately on a `None` address; otherwise fetch the advertisement
payload, build the `AdvertisementData`, assign all five keys of the
per-address record from this sighting, store the record, and invoke the
detection callback. -/
def on_discovered_device (s : Sighting) (st : ScannerState) : ScannerState :=
  match s.address with
  | none => st
  | some addr =>
    let manufacturer_data_dict := [(s.manufacturer_id, s.manufacturer_data)]
    let adv : AdvertisementData :=
      { local_name := s.name
        manufacturer_data := manufacturer_data_dict
        service_data := s.service_data
        service_uuids := s.service_uuids }
    let props0 := (alistLookup st.devices addr).getD emptyProps
    let props := { props0 with
        advertising_data := some adv
        manufacturer_data := manufacturer_data_dict
        name := s.name
        service_data := s.service_data
        uuids := s.service_uuids }
    { st with
        devices := alistInsert st.devices addr props
        emitted := st.emitted ++ [(addr, adv)] }

/-! ## CoreBluetooth scanner (`corebluetooth/scanner.py`)

`BleakScannerCoreBluetooth.start.callback` first overlays the raw
advertisement dictionary onto the per-peripheral record:
`self._identifiers.setdefault(p.identifier(), {}).update(a)`.  The
emission that follows parses platform objects (`__NSDictionaryM` etc.)
and reads only the current event, so it is modelled as a counter; the
aggregate record the claims concern is `_identifiers`. -/

/-- A value of the CoreBluetooth advertisement dictionary, opaque to the
overlay logic. -/
inductive CBVal
  | str (s : String)
  | blob (b : List Nat)
  | num (n : Int)
  | otherVal
deriving DecidableEq, Repr

/-- One delegate callback event: the peripheral identifier and the raw
advertisement dictionary `a`. -/
structure CBEvent where
  identifier : Nat
  adv : List (String × CBVal)
  rssi : Int
deriving DecidableEq, Repr

/-- The CoreBluetooth scanner's state: `self._identifiers` and the count
of emissions to the registered callback. -/
structure CBScannerState where
  identifiers : List (Nat × List (String × CBVal))
  emitted : Nat
deriving DecidableEq, Repr

/-- `BleakScannerCoreBluetooth.start.callback`:
`self._identifiers.setdefault(p.identifier(), {}).update(a)`, then emit. -/
def cb_scan_callback (e : CBEvent) (st : CBScannerState) : CBScannerState :=
  let old := (alistLookup st.identifiers e.identifier).getD []
  { identifiers := alistInsert st.identifiers e.identifier (dictUpdate old e.adv)
    emitted := st.emitted + 1 }

/-! ## Shared concrete states used by the closed theorems -/

/-- A client that has connected successfully and registered one
notification callback. -/
def connectedClient : ClientState :=
  { initialClient with
      connection := some 1
      notification_callbacks := ["/dev/service0010/char0011"] }

/-- A client whose services are already resolved. -/
def resolvedClient : ClientState :=
  { connectedClient with
      services_resolved := true
      services := [{ uuid := 9, attr_handle_start := 10, attr_handle_end := 20,
                     characteristics := [{ uuid := 3, handle := 12 }] }] }

/-- The unsolicited peer-disconnect signal: a `PropertiesChanged` D-Bus
signal on the device interface carrying `Connected: false`. -/
def peer_disconnect_signal : Message :=
  { message_type := MessageType.signal
    member := "PropertiesChanged"
    path := "/dev"
    interface := DEVICE_INTERFACE
    body := .propsChanged DEVICE_INTERFACE [("Connected", .bool false)] }

/-- A discovery environment used by witnesses: one service with handle
range `[10, 20]`, an in-range characteristic at 12 and an orphan at 25. -/
def sampleEnv : DiscoveryEnv :=
  { primary_status := 0
    primaries := [{ uuid := 9, attr_handle_start := 10, attr_handle_end := 20 }]
    char_status := 0
    characteristics := [{ uuid := 3, handle := 12 }, { uuid := 4, handle := 25 }] }

/-! ## C3: `get_services` is idempotent once resolved -/

/-- C3: on a session whose services are already resolved, `get_services`
returns the cached service collection and changes nothing — in
particular the `gattlib_discover_primary` / `gattlib_discover_char` call
counters are untouched, so no additional native discovery call is
issued, whatever the native environment would have answered. -/
theorem get_services_idempotent_when_resolved (env : DiscoveryEnv)
    (st : ClientState) (h : st.services_resolved = true) :
    get_services env st = (st, .ok st.services) := by
  simp [get_services, h]

/-- Witness for C3 at a concrete resolved client. -/
theorem get_services_idempotent_witness :
    resolvedClient.services_resolved = true ∧
    get_services sampleEnv resolvedClient = (resolvedClient, .ok resolvedClient.services) :=
  ⟨rfl, get_services_idempotent_when_resolved sampleEnv resolvedClient rfl⟩

/-! ## C5: `is_connected` is inverted in the code -/

/-- C5 (code bug): the code returns `self._connection == None`, so
`is_connected` is `true` on a client that has never connected and `false`
right after a successful `connect()` — the opposite of the claimed (and
docstring's) meaning. -/
theorem is_connected_inverted :
    is_connected initialClient = true ∧
    (connect (some 7) initialClient).2 = .ok true ∧
    is_connected (connect (some 7) initialClient).1 = false :=
  ⟨rfl, rfl, rfl⟩

/-! ## C6: a failed native disconnect changes nothing -/

/-- C6 counterexample: a connected client with a registered notification
callback whose native disconnect fails (status 1) is returned unchanged —
the connection handle survives, no cleanup task is scheduled, the
callback map is not cleared — and the translated error is raised, contrary
to the claim that the state is forced to Disconnected with cleanup run. -/
theorem disconnect_failure_keeps_connection_cex :
    disconnect 1 connectedClient = (connectedClient, .error (.nativeError 1)) ∧
    connectedClient.connection = some 1 ∧
    connectedClient.cleanup_tasks = 0 ∧
    connectedClient.notification_callbacks ≠ [] :=
  ⟨rfl, rfl, rfl, by decide⟩

/-- C6 amended: a `disconnect()` whose native disconnect reports failure
raises the translated error and leaves the client state entirely
unchanged — the connection handle is kept, the notification callbacks are
kept, and no cleanup runs. -/
theorem disconnect_failure_leaves_state_unchanged (st : ClientState)
    (h : Nat) (ret : Int) (hconn : st.connection = some h) (hret : ret ≠ 0) :
    disconnect ret st = (st, .error (.nativeError ret)) := by
  simp [disconnect, hconn, handle_return, hret]

/-- Witness for the amended C6 at a concrete connected client. -/
theorem disconnect_failure_witness :
    connectedClient.connection = some 1 ∧ (1 : Int) ≠ 0 ∧
    disconnect 1 connectedClient = (connectedClient, .error (.nativeError 1)) :=
  ⟨rfl, by decide,
    disconnect_failure_leaves_state_unchanged connectedClient 1 1 rfl (by decide)⟩

/-! ## C2: cleanup does not run exactly once -/

/-- C2 (code bug): a user-initiated `disconnect()` schedules no cleanup at
all (zero runs, the notification callbacks and connection handle are left
in place), while every unsolicited peer-disconnect signal unconditionally
schedules another `_cleanup_all()` task, so two signals for the same
connection run cleanup twice — the teardown is not claimed by any
run-once flag. -/
theorem cleanup_runs_zero_or_twice :
    (disconnect 0 connectedClient).1.cleanup_tasks = 0 ∧
    (disconnect 0 connectedClient).1.notification_callbacks =
      connectedClient.notification_callbacks ∧
    (disconnect 0 connectedClient).1.connection = some 1 ∧
    (parse_msg peer_disconnect_signal
      (parse_msg peer_disconnect_signal connectedClient)).cleanup_tasks = 2 := by
  decide

/-! ## C10: `write_gatt_char` rejects non-bytes data first -/

/-- C10: for a `data` argument that is neither `bytes` nor `bytearray`,
`write_gatt_char` raises `TypeError` before any native write is issued:
the client state (connection, callbacks, native-write list) is returned
unchanged, for every response mode and whatever the native write would
have answered. -/
theorem write_gatt_char_rejects_non_bytes (type_name : String)
    (response : Bool) (native_ret : Int) (st : ClientState) :
    write_gatt_char (.other type_name) response native_ret st =
      (st, .error (.typeError "Data must be of bytes type to know its size.")) :=
  rfl

/-! ## The success path of `get_services`, in closed form -/

theorem get_services_success (env : DiscoveryEnv) (st : ClientState)
    (h1 : st.services_resolved = false)
    (hp : env.primary_status = 0) (hc : env.char_status = 0) :
    (get_services env st).1.services =
      (st.services ++ env.primaries.map Service.ofPrimary).map (fun s =>
        { s with characteristics :=
            s.characteristics ++
              env.characteristics.filter (fun c => s.containsHandle c) }) ∧
    (get_services env st).1.orphan_warnings =
      st.orphan_warnings ++
        (env.characteristics.filter (fun c =>
          ¬ (st.services ++ env.primaries.map Service.ofPrimary).any
              (fun s => s.containsHandle c))).map (fun c => (c.uuid, c.handle)) ∧
    (get_services env st).1.services_resolved = true ∧
    (get_services env st).2 = .ok (get_services env st).1.services := by
  simp [get_services, h1, hp, hc, handle_return, attachAll_services,
    attachAll_orphans]

/-! ## C1: a characteristic is attached iff its handle is in range -/

/-- C1: starting from a fresh (unresolved, empty) session, for any
service-discovery and characteristic-discovery results, `get_services`
attaches a characteristic to a service **iff** its handle lies within that
service's `[attr_handle_start, attr_handle_end]` range — so each
characteristic ends up on exactly the services whose range contains its
handle (all of them when ranges overlap), or on none. -/
theorem get_services_attaches_iff_handle_in_range (env : DiscoveryEnv)
    (st : ClientState) (h1 : st.services_resolved = false)
    (h2 : st.services = [])
    (hp : env.primary_status = 0) (hc : env.char_status = 0) :
    ∀ s ∈ (get_services env st).1.services, ∀ c : Characteristic,
      c ∈ s.characteristics ↔
        c ∈ env.characteristics ∧
          s.attr_handle_start ≤ c.handle ∧ c.handle ≤ s.attr_handle_end := by
  intro s hs c
  have hserv := (get_services_success env st h1 hp hc).1
  rw [hserv, h2, List.nil_append, List.mem_map] at hs
  obtain ⟨s0, hs0, rfl⟩ := hs
  rw [List.mem_map] at hs0
  obtain ⟨p, _, rfl⟩ := hs0
  simp [Service.ofPrimary, Service.containsHandle, List.mem_filter]

/-- Witness for C1 at a concrete fresh client and a two-characteristic
discovery result. -/
theorem get_services_attaches_iff_witness :
    initialClient.services_resolved = false ∧ initialClient.services = [] ∧
    ∀ s ∈ (get_services sampleEnv initialClient).1.services,
      ∀ c : Characteristic,
        c ∈ s.characteristics ↔
          c ∈ sampleEnv.characteristics ∧
            s.attr_handle_start ≤ c.handle ∧ c.handle ≤ s.attr_handle_end :=
  ⟨rfl, rfl,
    get_services_attaches_iff_handle_in_range sampleEnv initialClient rfl rfl rfl rfl⟩

/-! ## C4: orphaned characteristics are logged, excluded, non-fatal -/

/-- C4: a discovered characteristic whose handle lies in no discovered
service's range is recorded as an orphan warning and attached to no
service, while discovery still completes successfully (`ok`), marks the
services resolved, and still attaches every other in-range
characteristic. -/
theorem get_services_orphan_recorded (env : DiscoveryEnv) (st : ClientState)
    (h1 : st.services_resolved = false) (h2 : st.services = [])
    (hp : env.primary_status = 0) (hc : env.char_status = 0)
    (c : Characteristic) (hcmem : c ∈ env.characteristics)
    (horph : ∀ p ∈ env.primaries,
      ¬ (p.attr_handle_start ≤ c.handle ∧ c.handle ≤ p.attr_handle_end)) :
    (get_services env st).2 = .ok (get_services env st).1.services ∧
    (get_services env st).1.services_resolved = true ∧
    (c.uuid, c.handle) ∈ (get_services env st).1.orphan_warnings ∧
    (∀ s ∈ (get_services env st).1.services, c ∉ s.characteristics) ∧
    (∀ c2 ∈ env.characteristics, ∀ p ∈ env.primaries,
      p.attr_handle_start ≤ c2.handle → c2.handle ≤ p.attr_handle_end →
        ∃ s ∈ (get_services env st).1.services, c2 ∈ s.characteristics) := by
  obtain ⟨hserv, horphans, hres, hok⟩ := get_services_success env st h1 hp hc
  refine ⟨hok, hres, ?_, ?_, ?_⟩
  · rw [horphans, h2, List.nil_append]
    apply List.mem_append_right
    rw [List.mem_map]
    refine ⟨c, ?_, rfl⟩
    rw [List.mem_filter]
    refine ⟨hcmem, ?_⟩
    simp only [List.any_map, List.any_eq_true, decide_eq_true_eq]
    intro hx
    obtain ⟨s0, hs0, hcontains⟩ := hx
    rw [List.mem_map] at hs0
    obtain ⟨p, hp2, rfl⟩ := hs0
    exact horph p hp2
      (by simpa [Service.containsHandle, Service.ofPrimary] using hcontains)
  · intro s hs
    rw [hserv, h2, List.nil_append, List.mem_map] at hs
    obtain ⟨s0, hs0, rfl⟩ := hs
    rw [List.mem_map] at hs0
    obtain ⟨p, hp2, rfl⟩ := hs0
    simp only [Service.ofPrimary, List.nil_append, List.mem_filter,
      Service.containsHandle, decide_eq_true_eq]
    intro hmem
    exact horph p hp2 hmem.2
  · intro c2 hc2 p hp2 hlo hhi
    rw [hserv, h2, List.nil_append]
    refine ⟨(fun s => { s with characteristics :=
        s.characteristics ++
          env.characteristics.filter (fun c => s.containsHandle c) })
      (Service.ofPrimary p), ?_, ?_⟩
    · rw [List.mem_map]
      exact ⟨Service.ofPrimary p, List.mem_map_of_mem Service.ofPrimary hp2, rfl⟩
    · simp only [Service.ofPrimary, List.nil_append, List.mem_filter,
        Service.containsHandle, decide_eq_true_eq]
      exact ⟨hc2, hlo, hhi⟩

/-- Witness for C4: a service with range `[10, 20]` and an orphan
characteristic at handle 25 — discovery succeeds, the orphan is logged and
excluded, the in-range characteristic at 12 is still attached. -/
theorem get_services_orphan_witness :
    (⟨4, 25⟩ : Characteristic) ∈ sampleEnv.characteristics ∧
    (get_services sampleEnv initialClient).2 =
      .ok (get_services sampleEnv initialClient).1.services ∧
    (get_services sampleEnv initialClient).1.services_resolved = true ∧
    (4, 25) ∈ (get_services sampleEnv initialClient).1.orphan_warnings ∧
    (∀ s ∈ (get_services sampleEnv initialClient).1.services,
      (⟨4, 25⟩ : Characteristic) ∉ s.characteristics) := by
  have h := get_services_orphan_recorded sampleEnv initialClient rfl rfl rfl rfl
    ⟨4, 25⟩ (by decide) (by decide)
  exact ⟨by decide, h.1, h.2.1, h.2.2.1, h.2.2.2.1⟩

/-! ## C7: sighting overlay -/

/-- Sighting A: carries only a local name. -/
def sightingA : Sighting :=
  { address := some "AA:BB:CC:DD:EE:FF"
    name := some "X"
    service_data := []
    manufacturer_id := 0
    manufacturer_data := none
    service_uuids := [] }

/-- Sighting B for the same address: carries only manufacturer data. -/
def sightingB : Sighting :=
  { address := some "AA:BB:CC:DD:EE:FF"
    name := none
    service_data := []
    manufacturer_id := 1
    manufacturer_data := some [1]
    service_uuids := [] }

/-- C7 counterexample: in the BlueZ-gattlib scanner, feeding sighting A
(name only) then sighting B (manufacturer data only) for the same address
leaves a record whose name is `none` — the name from A was overwritten,
not retained, even though B's manufacturer data is present. -/
theorem gattlib_scanner_overwrites_absent_fields_cex :
    (alistLookup
        (on_discovered_device sightingB
          (on_discovered_device sightingA emptyScanner)).devices
        "AA:BB:CC:DD:EE:FF").map DeviceProps.name = some none ∧
    (alistLookup
        (on_discovered_device sightingB
          (on_discovered_device sightingA emptyScanner)).devices
        "AA:BB:CC:DD:EE:FF").map DeviceProps.manufacturer_data =
      some [(1, some [1])] := by
  decide

/-- C7 amended: in the CoreBluetooth scanner the per-peripheral record is
overlaid key-by-key (`dict.update`), so a key present in the later raw
event overwrites the record and a key absent from it keeps its prior
value. -/
theorem cb_scanner_record_overlay (e : CBEvent) (st : CBScannerState)
    (k : String) (hnd : (e.adv.map Prod.fst).Nodup) :
    alistLookup (cb_scan_callback e st).identifiers e.identifier =
      some (dictUpdate ((alistLookup st.identifiers e.identifier).getD []) e.adv) ∧
    alistLookup
        (dictUpdate ((alistLookup st.identifiers e.identifier).getD []) e.adv) k =
      lookupOverlay ((alistLookup st.identifiers e.identifier).getD []) e.adv k := by
  constructor
  · simp [cb_scan_callback, alistLookup_insert]
  · exact alistLookup_dictUpdate
      ((alistLookup st.identifiers e.identifier).getD []) e.adv k hnd

/-- Witness for the amended C7: after event A carrying only a name and
event B carrying only manufacturer data for the same peripheral, the
merged CoreBluetooth record reports both the name from A and the
manufacturer data from B. -/
theorem cb_scanner_record_overlay_witness :
    (([("kCBAdvDataManufacturerData", CBVal.blob [1, 0, 1])].map
        Prod.fst).Nodup) ∧
    (alistLookup
        (cb_scan_callback
          { identifier := 5
            adv := [("kCBAdvDataManufacturerData", CBVal.blob [1, 0, 1])]
            rssi := -40 }
          (cb_scan_callback
            { identifier := 5
              adv := [("kCBAdvDataLocalName", CBVal.str "X")]
              rssi := -40 }
            { identifiers := [], emitted := 0 })).identifiers 5 =
      some [("kCBAdvDataLocalName", CBVal.str "X"),
            ("kCBAdvDataManufacturerData", CBVal.blob [1, 0, 1])]) := by
  constructor
  · decide
  · exact (cb_scanner_record_overlay
      { identifier := 5
        adv := [("kCBAdvDataManufacturerData", CBVal.blob [1, 0, 1])]
        rssi := -40 }
      (cb_scan_callback
        { identifier := 5
          adv := [("kCBAdvDataLocalName", CBVal.str "X")]
          rssi := -40 }
        { identifiers := [], emitted := 0 })
      "kCBAdvDataLocalName" (by decide)).1

/-! ## C9: a null-address discovery event -/

/-- A raw discovery event whose address is `None`. -/
def nullSighting : Sighting :=
  { address := none
    name := some "X"
    service_data := []
    manufacturer_id := 0
    manufacturer_data := none
    service_uuids := [] }

/-- C9 counterexample: the callback drops a `None`-address event by
returning immediately — the scanner state is entirely unchanged, and in
particular the log stays empty: no log entry records the drop, contrary
to the claim that the drop is logged. -/
theorem null_address_drop_unlogged_cex :
    on_discovered_device nullSighting emptyScanner = emptyScanner ∧
    (on_discovered_device nullSighting emptyScanner).log = [] := by
  decide

/-- C9 amended: a raw discovery event whose address is `None` is dropped
silently — no advertisement record is created or updated, no user callback
is invoked, and no log entry is emitted (the scanner state is returned
unchanged). -/
theorem null_address_event_dropped_silently (s : Sighting)
    (st : ScannerState) (h : s.address = none) :
    on_discovered_device s st = st := by
  unfold on_discovered_device
  rw [h]

/-- Witness for the amended C9. -/
theorem null_address_dropped_witness :
    nullSighting.address = none ∧
    on_discovered_device nullSighting emptyScanner = emptyScanner :=
  ⟨rfl, null_address_event_dropped_silently nullSighting emptyScanner rfl⟩

/-! ## C8: notification routing is exact-key only -/

theorem on_device_props_changed_preserves (changed : List (String × DBusValue))
    (st : ClientState) :
    (on_device_props_changed changed st).invoked = st.invoked ∧
    (on_device_props_changed changed st).signal_log = st.signal_log := by
  simp only [on_device_props_changed]
  repeat' split
  all_goals exact ⟨rfl, rfl⟩

/-- C8: for every inbound D-Bus message, `_parse_msg` invokes a
notification callback exactly as `value_change_dispatch` says — iff the
message is a `PropertiesChanged` signal on the characteristic interface
whose object path is, verbatim, a registered callback key and whose
changed properties carry `"Value"` (no UUID-only or fuzzy matching can
occur: the comparison is literal equality of the registered path) — and
every signal, including one dropped for lack of a registered key, leaves
a log entry. -/
theorem notification_dispatch_exact_key (msg : Message) (st : ClientState) :
    (parse_msg msg st).invoked = st.invoked ++ value_change_dispatch msg st ∧
    (parse_msg msg st).signal_log =
      st.signal_log ++
        (if msg.message_type = MessageType.signal then [(msg.member, msg.path)]
         else []) := by
  obtain ⟨mt, mem, path, iface0, body⟩ := msg
  by_cases hmt : mt = MessageType.signal
  case neg =>
    simp only [parse_msg, value_change_dispatch, ne_eq, hmt, not_false_iff,
      if_true, if_neg hmt]
    cases body <;> simp [hmt]
  case pos =>
    subst hmt
    simp only [parse_msg, value_change_dispatch, ne_eq, not_true_eq_false,
      if_false, if_pos rfl, reduceIte]
    by_cases hIA : mem = "InterfacesAdded"
    · subst hIA
      have hne : ¬ (("InterfacesAdded" : String) = "PropertiesChanged") := by decide
      cases body <;> simp [hne]
    · by_cases hIR : mem = "InterfacesRemoved"
      · subst hIR
        have hne : ¬ (("InterfacesRemoved" : String) = "PropertiesChanged") := by decide
        cases body <;> simp [hIA, hne]
      · by_cases hPC : mem = "PropertiesChanged"
        · subst hPC
          cases body with
          | interfaces p names => simp [hIA, hIR]
          | emptyBody => simp [hIA, hIR]
          | propsChanged iface changed =>
            by_cases hch : iface = GATT_CHARACTERISTIC_INTERFACE
            · subst hch
              by_cases hreg : path ∈ st.notification_callbacks
              · cases hv : alistLookup changed "Value" with
                | some v => simp [hIA, hIR, hreg, hv]
                | none => simp [hIA, hIR, hreg, hv]
              · simp [hIA, hIR, hreg]
            · by_cases hdev : iface = DEVICE_INTERFACE
              · subst hdev
                have hpres := on_device_props_changed_preserves changed
                  { st with signal_log := st.signal_log ++ [("PropertiesChanged", path)] }
                simp only [hIA, hIR, if_neg, if_pos rfl, hch, reduceIte] at *
                refine ⟨?_, ?_⟩
                · rw [hpres.1]
                  simp [hch]
                · rw [hpres.2]
              · simp [hIA, hIR, hch, hdev]
        · cases body <;> simp [hIA, hIR, hPC]

end Bleak
